import Mathlib

/-!
Shallow embedding of the file-selection state management of
`src/widgets/SelectFileInputWidget.js` (oojs-ui): the form-compatible
`SelectFileInputWidget` and the richer `SelectFileWidget` built on it.

JavaScript strings are modelled as lists of characters (`JStr`); a JS
`File` object is modelled by the structure `File`, whose `id` field stands
for object reference identity (JS `===` on objects). Stateful widget
methods become explicit state-passing functions returning the new state
together with the list of `change` events emitted during the call.
-/

namespace OOUI

/-- A JavaScript string, modelled as its sequence of characters. -/
abbrev JStr := List Char

/-- A JS File object: `id` models reference identity, the other fields are
the `name`, `type` and `size` properties read by the widget code. -/
structure File where
  id : Nat
  name : JStr
  type : JStr
  size : Nat
deriving DecidableEq, Repr

/-- One iteration of the pattern loop of
`SelectFileInputWidget.prototype.isAllowedType` (lines 196-206):
exact equality with the pattern, or, when the pattern ends in the two
characters `/*` (JS `substr(-2)`), a prefix comparison of `mimeType`
against the pattern with its last character removed. -/
def mimeTestMatches (mimeType mimeTest : JStr) : Bool :=
  if mimeTest = mimeType then true
  else if mimeTest.drop (mimeTest.length - 2) = ['/', '*'] then
    let t := mimeTest.take (mimeTest.length - 1)
    decide (mimeType.take t.length = t)
  else false

/-- `SelectFileInputWidget.prototype.isAllowedType` (lines 189-209).
`accept = none` models `this.accept === null`; an empty `mimeType` models
the falsy empty string, and both short-circuit to `true`. Otherwise the
loop with early return is `List.any`. -/
def isAllowedType (accept : Option (List JStr)) (mimeType : JStr) : Bool :=
  match accept with
  | none => true
  | some l =>
      if mimeType = [] then true
      else l.any (fun mimeTest => mimeTestMatches mimeType mimeTest)

/-- The acceptance rule as the specification words it: the MIME type
exactly equals some pattern, or some pattern ends in `/*` and the
type's prefix up to and including the slash equals that pattern with the
trailing star removed. Stated from the spec text, to be compared with
`isAllowedType`. -/
def specAllowedType (l : List JStr) (mimeType : JStr) : Prop :=
  ∃ p ∈ l, p = mimeType ∨
    (p.drop (p.length - 2) = ['/', '*'] ∧
     mimeType.take (p.length - 1) = p.take (p.length - 1))

theorem take_length_append {α : Type} (a b : List α) :
    (a ++ b).take a.length = a := by
  induction a with
  | nil => simp
  | cons x xs ih => simp [ih]

theorem mimeTestMatches_iff (mimeType mimeTest : JStr) :
    mimeTestMatches mimeType mimeTest = true ↔
      (mimeTest = mimeType ∨
        (mimeTest.drop (mimeTest.length - 2) = ['/', '*'] ∧
         mimeType.take (mimeTest.length - 1) = mimeTest.take (mimeTest.length - 1))) := by
  have hmin : min (mimeTest.length - 1) mimeTest.length = mimeTest.length - 1 :=
    Nat.min_eq_left (Nat.sub_le _ _)
  unfold mimeTestMatches
  split_ifs with h1 h2
  · simp [h1]
  · simp only [h2, true_and, decide_eq_true_eq, List.length_take, hmin]
    constructor
    · intro h; exact Or.inr h
    · rintro (h | h)
      · exact absurd h h1
      · exact h
  · simp [h1, h2]

/-- A `change` event of the richer `SelectFileWidget`, carrying the new
`File|null` value (lines 392-400). -/
inductive ChangeEvent
  | change (value : Option File)
deriving DecidableEq, Repr

/-- State of the richer `SelectFileWidget` relevant to the modelled
methods: the accepted MIME patterns (immutable after construction), the
current selection, the disabled flag, the cached static platform
capability `isSupported`, and the `showDropTarget` configuration. -/
structure SFWState where
  accept : Option (List JStr)
  currentFile : Option File
  disabled : Bool
  isSupported : Bool
  showDropTarget : Bool
deriving DecidableEq, Repr

/-- `SelectFileWidget.prototype.setValue` (lines 418-423): when the new
file differs from `currentFile` by reference identity (JS `!==`), update
it and emit one `change` event carrying the updated value; otherwise do
nothing. -/
def SFW.setValue (w : SFWState) (file : Option File) : SFWState × List ChangeEvent :=
  if w.currentFile ≠ file then
    ({ w with currentFile := file }, [ChangeEvent.change file])
  else (w, [])

/-- `SelectFileWidget.prototype.onFileSelected` (lines 524-543), the
native-input change handler, with the selected file (or its absence)
passed as `candidate`: a candidate whose type fails `isAllowedType` is
replaced by `null`, and the result is handed to `SFW.setValue`. The
`inputClearing` reentrancy guard and the clearing of the native input
value touch neither `currentFile` nor the emitted events and are not
modelled. Note the handler performs no disabled check. -/
def SFW.onFileSelected (w : SFWState) (candidate : Option File) :
    SFWState × List ChangeEvent :=
  let file : Option File :=
    match candidate with
    | some f => if isAllowedType w.accept f.type then some f else none
    | none => none
  SFW.setValue w file

/-- `SelectFileWidget.prototype.onDrop` (lines 620-641), with the first
file of the drop payload (or its absence) passed as `candidate`: a
disabled widget returns without touching state; a candidate whose type
fails `isAllowedType` is replaced by `null`; only a non-null file is
handed to `SFW.setValue`. -/
def SFW.onDrop (w : SFWState) (candidate : Option File) :
    SFWState × List ChangeEvent :=
  if w.disabled then (w, [])
  else
    match candidate with
    | some f =>
        if isAllowedType w.accept f.type then SFW.setValue w (some f)
        else (w, [])
    | none => (w, [])

/-- The disabled value computed by `SelectFileWidget.prototype.setDisabled`
(lines 646-651): the requested value, forced to true when the platform
lacks file-selection support. -/
def SFW.setDisabledCompute (isSupported requested : Bool) : Bool :=
  requested || !isSupported

/-- `SelectFileWidget.prototype.setDisabled` applied to the widget state. -/
def SFW.setDisabledState (w : SFWState) (requested : Bool) : SFWState :=
  { w with disabled := SFW.setDisabledCompute w.isSupported requested }

/-- The disabled state the `SelectFileWidget` constructor establishes
(lines 287-305): `config.disabled` is forced to true when `isSupported`
is false, and the parent constructor applies it through the overridden
`setDisabled`. -/
def SFW.initialDisabled (isSupported cfgDisabled : Bool) : Bool :=
  SFW.setDisabledCompute isSupported (if isSupported then cfgDisabled else true)

/-- The decode probe: what the off-DOM `img` element reports in its load
listener (lines 500-510): natural pixel dimensions and the `complete`
flag. -/
structure ImgProbe where
  naturalWidth : Nat
  naturalHeight : Nat
  complete : Bool
deriving DecidableEq, Repr

/-- Outcome of `loadAndGetImageUrl`: `immediateReject` is the synchronous
`deferred.reject()` taken without starting a byte read (lines 514-516);
`decodeReject` is the rejection after the read when the probe reports a
zero dimension or an incomplete decode; `resolved` carries the data URL
produced by the read. -/
inductive LoadOutcome
  | immediateReject
  | decodeReject
  | resolved (url : JStr)
deriving DecidableEq, Repr

/-- `SelectFileWidget.prototype.loadAndGetImageUrl` (lines 488-519),
with the asynchronous read and decode results supplied as arguments: the
file qualifies when present, its type begins with `image/`, and its size
is strictly below `thumbnailSizeLimit` MiB; a qualifying file is read and
its decode probed, a non-qualifying one is rejected at once. -/
def loadAndGetImageUrl (limit : Nat) (file : Option File) (probe : ImgProbe)
    (dataUrl : JStr) : LoadOutcome :=
  match file with
  | some f =>
      if ("image/".data <+: f.type) ∧ f.size < limit * 1024 * 1024 then
        if probe.naturalWidth = 0 ∨ probe.naturalHeight = 0 ∨ probe.complete = false then
          LoadOutcome.decodeReject
        else LoadOutcome.resolved dataUrl
      else LoadOutcome.immediateReject
  | none => LoadOutcome.immediateReject

/-- UI side effects of the preview section of `updateUI`: the pending
(busy) indicator pushes and pops, and the two terminal renderings. -/
inductive UIEvent
  | pushPending
  | popPending
  | setThumbnailBackground (url : JStr)
  | appendFallbackIcon
deriving DecidableEq, Repr

def UIEvent.isPushPending : UIEvent → Bool
  | UIEvent.pushPending => true
  | _ => false

def UIEvent.isPopPending : UIEvent → Bool
  | UIEvent.popPending => true
  | _ => false

/-- The preview section of `SelectFileWidget.prototype.updateUI`
(lines 441-468) as the ordered list of UI side effects it produces for
one settled preview attempt: nothing when unsupported, no file is
selected, or there is no drop target; otherwise `pushPending`, then the
`done` callback (set the thumbnail background) or the `fail` callback
(append the fallback attachment icon), then the unconditional `always`
callback (`popPending`). -/
def updateUIPreview (isSupported showDropTarget : Bool) (currentFile : Option File)
    (limit : Nat) (probe : ImgProbe) (dataUrl : JStr) : List UIEvent :=
  if !isSupported then []
  else
    match currentFile with
    | some _ =>
        if showDropTarget then
          [UIEvent.pushPending] ++
          (match loadAndGetImageUrl limit currentFile probe dataUrl with
           | LoadOutcome.resolved url => [UIEvent.setThumbnailBackground url]
           | LoadOutcome.immediateReject => [UIEvent.appendFallbackIcon]
           | LoadOutcome.decodeReject => [UIEvent.appendFallbackIcon]) ++
          [UIEvent.popPending]
        else []
    | none => []

/-- A listener bound to the widget's `change` event: either the widget's
own `updateUI` binding made in the constructor (line 69,
`this.connect( this, { change: 'updateUI' } )`), or an external
subscriber identified by a number. -/
inductive Listener
  | internalUpdateUI
  | external (id : Nat)
deriving DecidableEq, Repr

/-- Observable dispatch steps during one `change` emission: the internal
`updateUI` listener triggering the preview pipeline, or an external
subscriber receiving the notification. -/
inductive DispatchEvt
  | previewTriggered
  | externalNotified (id : Nat)
deriving DecidableEq, Repr

def listenerNotify : Listener → DispatchEvt
  | Listener.internalUpdateUI => DispatchEvt.previewTriggered
  | Listener.external i => DispatchEvt.externalNotified i

/-- Modelled from the spec: event dispatch is single-threaded and
synchronous (spec section 5), and the event emitter (`OO.EventEmitter`,
an external collaborator outside this file's source) invokes the
listeners of an event in the order they were connected. One `change`
emission visits the listener list in order. -/
def emitChange (listeners : List Listener) : List DispatchEvt :=
  listeners.map listenerNotify

/-- The `change` listener list right after construction: the constructor
itself connects `updateUI` (line 69), before any external code can
subscribe. -/
def constructionListeners : List Listener :=
  [Listener.internalUpdateUI]

/-- Connecting one further subscriber appends it to the listener list. -/
def connectExternal (listeners : List Listener) (i : Nat) : List Listener :=
  listeners ++ [Listener.external i]

/-- A value passed to the form-compatible widget's `setValue`: JS
`undefined`, `null`, or a string. -/
inductive JsVal
  | undef
  | nullv
  | str (s : JStr)
deriving DecidableEq, Repr

/-- A `change` event of the form-compatible `SelectFileInputWidget`,
carrying the new string value. -/
inductive SFIWEvent
  | change (value : JStr)
deriving DecidableEq, Repr

/-- State of the form-compatible `SelectFileInputWidget` relevant to
`setValue`: the current file reference and the stored string value. -/
structure SFIWState where
  accept : Option (List JStr)
  currentFile : Option File
  value : JStr
deriving DecidableEq, Repr

/-- Modelled from the spec: the falsy branch of
`SelectFileInputWidget.prototype.setValue` (lines 118-122) clears
`currentFile` and then calls the parent `InputWidget.prototype.setValue`
with the empty string; that parent method is not under the sources
provided, and the spec (section 9) states that this path unconditionally
clears the value and notifies. -/
def SFIW.clearToEmpty (w : SFIWState) : SFIWState × List SFIWEvent :=
  ({ w with currentFile := none, value := [] }, [SFIWEvent.change []])

/-- `SelectFileInputWidget.prototype.setValue` (lines 106-123): an
`undefined` value returns immediately; a truthy (non-empty) string is
stored and notified when it differs from the stored value; a falsy value
(`null` or the empty string) takes the clearing branch. -/
def SFIW.setValue (w : SFIWState) (value : JsVal) : SFIWState × List SFIWEvent :=
  match value with
  | JsVal.undef => (w, [])
  | JsVal.nullv => SFIW.clearToEmpty w
  | JsVal.str s =>
      if s ≠ [] then
        if w.value ≠ s then ({ w with value := s }, [SFIWEvent.change s])
        else (w, [])
      else SFIW.clearToEmpty w

/-- A jpeg file fixture used by concrete instances. -/
def jpegFile : File :=
  { id := 1, name := "a.jpg".data, type := "image/jpeg".data, size := 100 }

/-- A plain-text file fixture used by concrete instances. -/
def plainFile : File :=
  { id := 2, name := "b.txt".data, type := "text/plain".data, size := 100 }

/-- A widget state holding an accepted jpeg under `accept: ["image/*"]`. -/
def jpegSelectedState : SFWState :=
  { accept := some ["image/*".data], currentFile := some jpegFile,
    disabled := false, isSupported := true, showDropTarget := false }

/-- A disabled widget state accepting every type. -/
def disabledState : SFWState :=
  { accept := none, currentFile := none,
    disabled := true, isSupported := true, showDropTarget := false }

/-- A probe reporting a successful decode. -/
def okProbe : ImgProbe :=
  { naturalWidth := 10, naturalHeight := 10, complete := true }

/-- A probe reporting a zero-dimension, incomplete decode. -/
def badProbe : ImgProbe :=
  { naturalWidth := 0, naturalHeight := 0, complete := false }

/-- C1, counterexample: with `accept: ["image/*"]` and a jpeg currently
selected, a rejected `text/plain` candidate arriving through the
native-input change handler does not leave `currentFile` equal to the
jpeg: it clears the selection and emits a change notification. -/
theorem rejected_candidate_keeps_file_counterexample :
    (SFW.onFileSelected jpegSelectedState (some plainFile)).1.currentFile
        ≠ some jpegFile ∧
    (SFW.onFileSelected jpegSelectedState (some plainFile)).2 ≠ [] := by
  decide

/-- C1, amended: a candidate whose MIME type fails the filter is a strict
no-op only for the drop handler; the native-input change handler instead
forwards `null` to `setValue`, so it clears `currentFile` and, when a
file was previously selected, emits one change notification carrying
`null`. -/
theorem rejected_candidate_paths (w : SFWState) (f : File)
    (hrej : isAllowedType w.accept f.type = false) :
    SFW.onDrop w (some f) = (w, []) ∧
    (SFW.onFileSelected w (some f)).1.currentFile = none ∧
    (w.currentFile ≠ none →
      (SFW.onFileSelected w (some f)).2 = [ChangeEvent.change none]) := by
  refine ⟨?_, ?_, ?_⟩
  · by_cases hd : w.disabled <;> simp [SFW.onDrop, hd, hrej]
  · by_cases hc : w.currentFile = none <;>
      simp [SFW.onFileSelected, SFW.setValue, hrej, hc]
  · intro hc
    simp [SFW.onFileSelected, SFW.setValue, hrej, hc]

/-- C1, witness for the amended theorem at the jpeg-selected state and a
`text/plain` candidate. -/
theorem rejected_candidate_paths_witness :
    SFW.onDrop jpegSelectedState (some plainFile) = (jpegSelectedState, []) ∧
    (SFW.onFileSelected jpegSelectedState (some plainFile)).1.currentFile = none ∧
    (jpegSelectedState.currentFile ≠ none →
      (SFW.onFileSelected jpegSelectedState (some plainFile)).2
        = [ChangeEvent.change none]) :=
  rejected_candidate_paths jpegSelectedState plainFile (by decide)

/-- C2, counterexample: on a disabled widget, a file arriving through the
native-input change handler is not a no-op: the handler has no disabled
guard, so it updates `currentFile` and emits a change notification. -/
theorem disabled_change_handler_counterexample :
    (SFW.onFileSelected disabledState (some plainFile)).1 ≠ disabledState ∧
    (SFW.onFileSelected disabledState (some plainFile)).2 ≠ [] := by
  decide

/-- C2, amended: when the widget is disabled, the drop handler is a
complete no-op for every candidate; the native-input change handler
checks nothing and relies on the disabled native input never firing. -/
theorem disabled_drop_noop (w : SFWState) (candidate : Option File)
    (hd : w.disabled = true) :
    SFW.onDrop w candidate = (w, []) := by
  simp [SFW.onDrop, hd]

/-- C2, witness for the amended theorem at a disabled state. -/
theorem disabled_drop_noop_witness :
    SFW.onDrop disabledState (some plainFile) = (disabledState, []) :=
  disabled_drop_noop disabledState (some plainFile) rfl

/-- C3 (confirmed): calling the richer widget's `setValue` twice in a
row with the same file reference emits exactly one change notification
in total when the file differs from the current selection, and none when
it is the already-selected reference; the second call never emits. -/
theorem setValue_twice_single_change (w : SFWState) (f : Option File) :
    ((SFW.setValue w f).2.length
        + (SFW.setValue (SFW.setValue w f).1 f).2.length
      = if w.currentFile = f then 0 else 1) ∧
    (SFW.setValue (SFW.setValue w f).1 f).2 = [] := by
  by_cases h : w.currentFile = f <;> simp [SFW.setValue, h]

/-- C5 (confirmed): `isAllowedType` returns true whenever the accepted
types are the accept-all sentinel or the MIME type is the empty string,
regardless of the other argument. -/
theorem allow_all_sentinel_or_empty_mime (accept : Option (List JStr))
    (mimeType : JStr) (h : accept = none ∨ mimeType = []) :
    isAllowedType accept mimeType = true := by
  rcases h with h | h
  · subst h; rfl
  · subst h; cases accept <;> simp [isAllowedType]

/-- C5, witness at the accept-all sentinel and a concrete MIME type. -/
theorem allow_all_sentinel_or_empty_mime_witness :
    isAllowedType none "text/plain".data = true :=
  allow_all_sentinel_or_empty_mime none "text/plain".data (Or.inl rfl)

/-- C9 (confirmed): when the platform lacks file-selection capability,
the richer widget is disabled at construction and `setDisabled` leaves
it disabled for every requested value. -/
theorem unsupported_forces_disabled (w : SFWState) (cfgDisabled requested : Bool)
    (h : w.isSupported = false) :
    SFW.initialDisabled w.isSupported cfgDisabled = true ∧
    (SFW.setDisabledState w requested).disabled = true := by
  simp [SFW.initialDisabled, SFW.setDisabledCompute, SFW.setDisabledState, h]

/-- C9, witness at a concrete unsupported state with `setDisabled(false)`. -/
theorem unsupported_forces_disabled_witness :
    SFW.initialDisabled
        ({ disabledState with isSupported := false } : SFWState).isSupported false
      = true ∧
    (SFW.setDisabledState { disabledState with isSupported := false } false).disabled
      = true :=
  unsupported_forces_disabled { disabledState with isSupported := false }
    false false (by decide)

/-- C10 (confirmed): `setValue(undefined)` on the form-compatible widget
is a complete no-op: the state, including `currentFile` and the stored
string value, is unchanged and no change notification is emitted. -/
theorem setValue_undefined_noop (w : SFIWState) :
    SFIW.setValue w JsVal.undef = (w, []) :=
  rfl

/-- C4 (confirmed): with a non-empty pattern list and a non-empty MIME
type, `isAllowedType` returns true exactly when the type equals some
pattern or matches some wildcard pattern as the spec words it
(`specAllowedType`); and for every listed pattern ending in `/*`, the
pattern with the star removed followed by anything is accepted. -/
theorem isAllowedType_matches_spec (l : List JStr) (mimeType : JStr)
    (_hl : l ≠ []) (hm : mimeType ≠ []) :
    (isAllowedType (some l) mimeType = true ↔ specAllowedType l mimeType) ∧
    (∀ p ∈ l, p.drop (p.length - 2) = ['/', '*'] →
      ∀ rest, isAllowedType (some l) (p.take (p.length - 1) ++ rest) = true) := by
  constructor
  · simp only [isAllowedType, if_neg hm, List.any_eq_true, specAllowedType]
    constructor
    · rintro ⟨p, hp, hmt⟩
      exact ⟨p, hp, (mimeTestMatches_iff _ _).1 hmt⟩
    · rintro ⟨p, hp, hmt⟩
      exact ⟨p, hp, (mimeTestMatches_iff _ _).2 hmt⟩
  · intro p hp hstar rest
    have h2 : p.length - (p.length - 2) = 2 := by
      have := congrArg List.length hstar
      simpa [List.length_drop] using this
    have ht : (p.take (p.length - 1)).length = p.length - 1 := by
      rw [List.length_take]
      omega
    have hne : p.take (p.length - 1) ++ rest ≠ [] := by
      intro hc
      have := congrArg List.length hc
      rw [List.length_append, ht] at this
      simp at this
      omega
    simp only [isAllowedType, if_neg hne, List.any_eq_true]
    refine ⟨p, hp, (mimeTestMatches_iff _ _).2 (Or.inr ⟨hstar, ?_⟩)⟩
    have hrw : (p.take (p.length - 1) ++ rest).take (p.length - 1)
        = (p.take (p.length - 1) ++ rest).take ((p.take (p.length - 1)).length) := by
      rw [ht]
    rw [hrw, take_length_append]

/-- C4, witness: under `accept: ["image/*"]` the type built from the
wildcard pattern with the star removed followed by `anything` is
accepted. -/
theorem isAllowedType_matches_spec_witness :
    isAllowedType (some ["image/*".data])
        ("image/*".data.take ("image/*".data.length - 1) ++ "anything".data)
      = true :=
  (isAllowedType_matches_spec ["image/*".data] "image/png".data
      (by decide) (by decide)).2
    "image/*".data (by decide) (by decide) "anything".data

/-- C6 (confirmed): the thumbnail size bound is a strict less-than in
bytes: an image-typed file of size exactly `limit * 1024 * 1024` is
rejected immediately, without starting a byte read, while one byte under
the bound qualifies for the read. -/
theorem thumbnail_limit_strict (limit : Nat) (f : File) (probe : ImgProbe)
    (url : JStr) (himg : "image/".data <+: f.type) (hpos : 1 ≤ limit) :
    loadAndGetImageUrl limit (some { f with size := limit * 1024 * 1024 }) probe url
        = LoadOutcome.immediateReject ∧
    loadAndGetImageUrl limit (some { f with size := limit * 1024 * 1024 - 1 }) probe url
        ≠ LoadOutcome.immediateReject := by
  constructor
  · simp only [loadAndGetImageUrl]
    rw [if_neg]
    rintro ⟨-, hlt⟩
    exact absurd hlt (by simp)
  · simp only [loadAndGetImageUrl]
    rw [if_pos]
    · split_ifs <;> simp
    · refine ⟨himg, ?_⟩
      show limit * 1024 * 1024 - 1 < limit * 1024 * 1024
      omega

/-- C6, witness at the default 20 MiB limit and a jpeg file. -/
theorem thumbnail_limit_strict_witness :
    loadAndGetImageUrl 20 (some { jpegFile with size := 20 * 1024 * 1024 }) okProbe []
        = LoadOutcome.immediateReject ∧
    loadAndGetImageUrl 20 (some { jpegFile with size := 20 * 1024 * 1024 - 1 }) okProbe []
        ≠ LoadOutcome.immediateReject :=
  thumbnail_limit_strict 20 jpegFile okProbe [] (by decide) (by decide)

theorem loadAndGetImageUrl_badProbe_not_resolved (limit : Nat)
    (file : Option File) (probe : ImgProbe) (dataUrl u : JStr)
    (hbad : probe.naturalWidth = 0 ∨ probe.naturalHeight = 0 ∨ probe.complete = false) :
    loadAndGetImageUrl limit file probe dataUrl ≠ LoadOutcome.resolved u := by
  cases file with
  | none => simp [loadAndGetImageUrl]
  | some f =>
    simp only [loadAndGetImageUrl]
    by_cases h1 : ("image/".data <+: f.type) ∧ f.size < limit * 1024 * 1024
    · rw [if_pos h1, if_pos hbad]
      simp
    · rw [if_neg h1]
      simp

/-- C7 (confirmed): in the preview section of `updateUI`, the busy
indicator is popped exactly as often as it is pushed, and exactly once
whenever a preview attempt entered the pending state, on the success and
the failure path alike; and a probe reporting a zero natural dimension
or an incomplete decode never yields a thumbnail rendering. -/
theorem preview_busy_discipline (isSupported sdt : Bool) (cf : Option File)
    (limit : Nat) (probe : ImgProbe) (url : JStr) :
    ((updateUIPreview isSupported sdt cf limit probe url).countP UIEvent.isPushPending
      = (updateUIPreview isSupported sdt cf limit probe url).countP UIEvent.isPopPending) ∧
    (UIEvent.pushPending ∈ updateUIPreview isSupported sdt cf limit probe url →
      (updateUIPreview isSupported sdt cf limit probe url).countP UIEvent.isPopPending
        = 1) ∧
    ((probe.naturalWidth = 0 ∨ probe.naturalHeight = 0 ∨ probe.complete = false) →
      ∀ u, UIEvent.setThumbnailBackground u
        ∉ updateUIPreview isSupported sdt cf limit probe url) := by
  cases isSupported with
  | false => simp [updateUIPreview]
  | true =>
    cases cf with
    | none => simp [updateUIPreview]
    | some f =>
      cases sdt with
      | false => simp [updateUIPreview]
      | true =>
        simp only [updateUIPreview, Bool.not_true]
        cases h : loadAndGetImageUrl limit (some f) probe url with
        | immediateReject =>
          refine ⟨?_, ?_, ?_⟩
          · simp [List.countP_cons, UIEvent.isPushPending, UIEvent.isPopPending]
          · intro _
            simp [List.countP_cons, UIEvent.isPopPending]
          · intro _ u
            simp
        | decodeReject =>
          refine ⟨?_, ?_, ?_⟩
          · simp [List.countP_cons, UIEvent.isPushPending, UIEvent.isPopPending]
          · intro _
            simp [List.countP_cons, UIEvent.isPopPending]
          · intro _ u
            simp
        | resolved u' =>
          refine ⟨?_, ?_, ?_⟩
          · simp [List.countP_cons, UIEvent.isPushPending, UIEvent.isPopPending]
          · intro _
            simp [List.countP_cons, UIEvent.isPopPending]
          · intro hbad u
            exact absurd h (loadAndGetImageUrl_badProbe_not_resolved _ _ _ _ _ hbad)

/-- C7, witness: with a drop target, a selected jpeg under the size
limit and a zero-dimension incomplete probe, the pending indicator is
popped once and no thumbnail rendering appears in the trace. -/
theorem preview_busy_discipline_witness :
    (updateUIPreview true true (some jpegFile) 20 badProbe []).countP
        UIEvent.isPopPending = 1 ∧
    UIEvent.setThumbnailBackground "x".data
        ∉ updateUIPreview true true (some jpegFile) 20 badProbe [] :=
  ⟨(preview_busy_discipline true true (some jpegFile) 20 badProbe []).2.1 (by decide),
   (preview_busy_discipline true true (some jpegFile) 20 badProbe []).2.2
     (by decide) "x".data⟩

def firstIdxOf (tr : List DispatchEvt) (a : DispatchEvt) : Nat :=
  tr.findIdx (fun e => decide (e = a))

/-- C8, counterexample: for an external subscriber connected right after
construction, one change emission triggers the preview pipeline (the
internal `updateUI` listener, connected first) strictly before the
external subscriber is notified — not after, as the claim states. -/
theorem external_before_preview_counterexample :
    DispatchEvt.previewTriggered
        ∈ emitChange (connectExternal constructionListeners 0) ∧
    DispatchEvt.externalNotified 0
        ∈ emitChange (connectExternal constructionListeners 0) ∧
    ¬ (firstIdxOf (emitChange (connectExternal constructionListeners 0))
          (DispatchEvt.externalNotified 0)
        < firstIdxOf (emitChange (connectExternal constructionListeners 0))
          DispatchEvt.previewTriggered) := by
  decide

/-- C8, amended: the change emission itself precedes the preview
trigger, but within the emission the internal `updateUI` listener
connected at construction runs first: the dispatch trace of one change
emission is the preview trigger followed by the external notifications
in subscription order, for every set of subscribers connected after
construction. -/
theorem preview_trigger_precedes_external_delivery (es : List Nat) :
    emitChange (constructionListeners ++ es.map Listener.external)
      = DispatchEvt.previewTriggered :: es.map DispatchEvt.externalNotified := by
  have hcomp : listenerNotify ∘ Listener.external = DispatchEvt.externalNotified := by
    funext i
    rfl
  simp [emitChange, constructionListeners, List.map_map, hcomp, listenerNotify]




